import Mathlib

/-!
Verification of the judge-api submission intake routes
(src/routes/api/submissions.ts and the language seeding script).

The Express handlers are embedded as pure functions over explicit outcomes
of the external collaborators: the Submission Store (Sequelize model
Submissions) and the Job Queue Client (queueJob).  Each handler result
records the HTTP response together with the side effects performed
(records written to the store, jobs handed to the queue client), so that
frame conditions are provable.
-/

namespace JudgeApi

/-- One testcase of a submission request: input and expected output locators. -/
structure Testcase where
  input : String
  output : String
deriving Repr, DecidableEq

/-- Body of a POST /submissions request, as declared by SubmissionRequestBody
in submissions.ts. -/
structure SubmissionRequestBody where
  source : String
  lang : String
  testcases : List Testcase
  getstdout : Bool
  callbackurl : String
deriving Repr, DecidableEq

/-- An attributes object passed to or returned from the Submissions store.
It mirrors a JavaScript object cast to SubmissionAttributes: keys that the
object literal does not set are absent, modelled as none. -/
structure SubmissionAttributes where
  id : Option Nat := none
  lang : Option String := none
  start_time : Option Nat := none
  source : Option String := none
  testcases : Option (List Testcase) := none
  getstdout : Option Bool := none
  callbackurl : Option String := none
deriving Repr, DecidableEq

/-- The job object the POST handler constructs and hands to queueJob.  Its
fields are exactly the four keys of the object literal at lines 94-99 of
submissions.ts: id, source, testcases, getstdout. -/
structure SubmissionJob where
  id : Nat
  source : String
  testcases : List Testcase
  getstdout : Bool
deriving Repr, DecidableEq

/-- The synchronous success body, as declared by SubmissionResponse. -/
structure SubmissionResponse where
  id : Nat
  accepted : Bool
  callbackurl : String
deriving Repr, DecidableEq

/-- The structured error body with fields code, message, error that both
handlers send on failure. -/
structure ErrorBody where
  code : Nat
  message : String
  error : String
deriving Repr, DecidableEq

/-- Body of a POST /submissions HTTP response. -/
inductive PostBody where
  | success (r : SubmissionResponse)
  | failure (e : ErrorBody)
deriving Repr, DecidableEq

/-- An HTTP response of the POST route: status code and JSON body. -/
structure PostHttpResponse where
  status : Nat
  body : PostBody
deriving Repr, DecidableEq

/-- Body of a GET /submissions HTTP response. -/
inductive GetBody where
  | list (subs : List SubmissionAttributes)
  | failure (e : ErrorBody)
deriving Repr, DecidableEq

/-- An HTTP response of the GET route: status code and JSON body. -/
structure GetHttpResponse where
  status : Nat
  body : GetBody
deriving Repr, DecidableEq

/-- Outcome of the Submissions.create call: the store either assigns an id
and persists the record, or rejects the write with an error. -/
inductive CreateOutcome where
  | ok (assignedId : Nat)
  | err (e : String)
deriving Repr, DecidableEq

/-- Outcome of a queueJob call: it either returns a boolean (whether the
broker accepted the publish) or throws. -/
inductive QueueOutcome where
  | ret (queued : Bool)
  | raise (e : String)
deriving Repr, DecidableEq

/-- Outcome of the Submissions.findAll call used by the GET route. -/
inductive FindAllOutcome where
  | ok (subs : List SubmissionAttributes)
  | err (e : String)
deriving Repr, DecidableEq

/-- Result of running the POST handler: the HTTP response together with the
side effects performed, namely the records written to the store and the
jobs handed to queueJob. -/
structure PostResult where
  response : PostHttpResponse
  created : List SubmissionAttributes
  enqueued : List SubmissionJob
deriving Repr, DecidableEq

/-- The attributes object the POST handler passes to Submissions.create at
lines 89-92: only lang and start_time are set. -/
def createPayload (body : SubmissionRequestBody) (now : Nat) : SubmissionAttributes :=
  { lang := some body.lang, start_time := some now }

/-- The job the POST handler constructs at lines 94-99 from the assigned
submission id and the request body. -/
def jobOf (body : SubmissionRequestBody) (assignedId : Nat) : SubmissionJob :=
  { id := assignedId
    source := body.source
    testcases := body.testcases
    getstdout := body.getstdout }

/-- The 501 error response produced by the catch branch of the POST route. -/
def couldNotAccept (e : String) : PostHttpResponse :=
  { status := 501
    body := .failure { code := 501, message := "Could not accept submission", error := e } }

/-- Shallow embedding of the POST /submissions handler (lines 87-113 of
submissions.ts).  The handler performs no validation; it calls
Submissions.create with only lang and start_time.  On create failure the
catch branch answers 501 and nothing else runs.  On create success it calls
queueJob on the constructed job; if queueJob returns, the handler answers
202 with the returned boolean as accepted; if queueJob throws, the throw is
caught by the same promise catch branch, which answers 501, after the record
was already persisted. -/
def postSubmissions (body : SubmissionRequestBody) (now : Nat)
    (create : CreateOutcome) (queue : SubmissionJob → QueueOutcome) : PostResult :=
  match create with
  | .err e =>
    { response := couldNotAccept e, created := [], enqueued := [] }
  | .ok assignedId =>
    match queue (jobOf body assignedId) with
    | .ret queued =>
      { response :=
          { status := 202
            body := .success { id := assignedId, accepted := queued, callbackurl := body.callbackurl } }
        created := [{ createPayload body now with id := some assignedId }]
        enqueued := [jobOf body assignedId] }
    | .raise e =>
      { response := couldNotAccept e
        created := [{ createPayload body now with id := some assignedId }]
        enqueued := [jobOf body assignedId] }

/-- Shallow embedding of the GET /submissions handler (lines 31-39 of
submissions.ts): pass the findAll result through with status 200, or answer
501 with the structured error body. -/
def getSubmissions (outcome : FindAllOutcome) : GetHttpResponse :=
  match outcome with
  | .ok subs => { status := 200, body := .list subs }
  | .err e =>
    { status := 501
      body := .failure { code := 501, message := "Could not fetch submissions", error := e } }

/-- One row of the Langs table. -/
structure LangsAttributes where
  lang_slug : String
  lang_name : String
  lang_version : String
deriving Repr, DecidableEq

/-- The five rows passed to Langs.bulkCreate by the seeding script. -/
def seededLangs : List LangsAttributes :=
  [ { lang_slug := "py2", lang_name := "Python", lang_version := "2.7" }
  , { lang_slug := "java8", lang_name := "Java", lang_version := "1.8" }
  , { lang_slug := "nodejs6", lang_name := "NodeJS", lang_version := "6" }
  , { lang_slug := "cpp", lang_name := "C++", lang_version := "11" }
  , { lang_slug := "c", lang_name := "C", lang_version := "6" } ]

/-- The Langs table contents after the seeding script runs: Langs.sync with
force true drops and recreates the table, so whatever it held before is
discarded, and bulkCreate then inserts exactly seededLangs. -/
def langsSetup (prior : List LangsAttributes) : List LangsAttributes :=
  seededLangs

/-- A result entry of the callback payload: statuscode always, stdout and
stderr optionally. -/
structure TestResult where
  statuscode : Nat
  stdout : Option String := none
  stderr : Option String := none
deriving Repr, DecidableEq

/-- The callback payload posted to the callbackurl: id and results. -/
structure CallbackPayload where
  id : Nat
  results : List TestResult
deriving Repr, DecidableEq

/-- What the worker observes when executing one testcase: a status code and
the captured stdout and stderr text. -/
structure JudgeVerdict where
  statuscode : Nat
  stdout : String
  stderr : String
deriving Repr, DecidableEq

/-- Modelled from the spec: the result entry built from one verdict carries
stdout and stderr only when the originating Job had getstdout true
(spec section 3, Callback payload). -/
def resultOfVerdict (getstdout : Bool) (v : JudgeVerdict) : TestResult :=
  { statuscode := v.statuscode
    stdout := if getstdout then some v.stdout else none
    stderr := if getstdout then some v.stderr else none }

/-- Modelled from the spec: Callback Delivery is executed by the external
Judging Worker, whose code is not part of this repository.  Per spec
sections 3 and 4.3, the worker executes the testcases of a Job in order
(modelled by a judging function from testcase to verdict) and builds the
payload with the id of the Job and one result entry per testcase, in the
same order as the testcases of the Job. -/
def buildCallbackPayload (job : SubmissionJob) (judge : Testcase → JudgeVerdict) : CallbackPayload :=
  { id := job.id
    results := job.testcases.map (fun tc => resultOfVerdict job.getstdout (judge tc)) }

/-- A concrete request with a callback url, used to exhibit that the url is
neither persisted nor carried in the job. -/
def reqCb : SubmissionRequestBody :=
  { source := "http://code/src.cpp"
    lang := "cpp"
    testcases := [ { input := "i1", output := "o1" } ]
    getstdout := true
    callbackurl := "http://cb/x" }

/-- A concrete malformed request: its lang is not a seeded slug and its
testcases sequence is empty. -/
def malformedReq : SubmissionRequestBody :=
  { source := "not-a-url"
    lang := "cobol"
    testcases := []
    getstdout := false
    callbackurl := "also-not-a-url" }

/-- C1: when the store create succeeds with some assigned id, the handler
creates exactly one Submission record, hands at most one Job to the queue
(exactly one, whatever queueJob does), and that Job has id equal to the
assigned id and source, testcases, getstdout copied verbatim from the
request body. -/
theorem post_creates_one_record_and_job (body : SubmissionRequestBody) (now i : Nat)
    (q : SubmissionJob → QueueOutcome) :
    (postSubmissions body now (.ok i) q).created.length = 1 ∧
    (postSubmissions body now (.ok i) q).enqueued.length ≤ 1 ∧
    (postSubmissions body now (.ok i) q).enqueued = [jobOf body i] ∧
    (jobOf body i).id = i ∧
    (jobOf body i).source = body.source ∧
    (jobOf body i).testcases = body.testcases ∧
    (jobOf body i).getstdout = body.getstdout := by
  cases h : q (jobOf body i) <;>
    simp [postSubmissions, h] <;> simp [jobOf]

/-- C2: when the store create fails, no record is written, no job is
constructed or handed to the queue, and the caller gets the 501 structured
error response, which is not a 2xx status. -/
theorem post_create_failure_no_job (body : SubmissionRequestBody) (now : Nat) (e : String)
    (q : SubmissionJob → QueueOutcome) :
    (postSubmissions body now (.err e) q).enqueued = [] ∧
    (postSubmissions body now (.err e) q).created = [] ∧
    (postSubmissions body now (.err e) q).response =
      { status := 501
        body := .failure { code := 501, message := "Could not accept submission", error := e } } ∧
    300 ≤ (postSubmissions body now (.err e) q).response.status := by
  refine ⟨rfl, rfl, rfl, ?_⟩
  simp [postSubmissions, couldNotAccept]

/-- C3: when persistence succeeds and queueJob returns a boolean b, the
response is status 202 with body of id the assigned id, accepted b, and the
callbackurl of the request, for either value of b; the record persists, and
a subsequent GET /submissions over a store holding it returns it with
status 200. -/
theorem post_success_202_and_listed (body : SubmissionRequestBody) (now i : Nat) (b : Bool) :
    (postSubmissions body now (.ok i) (fun j => .ret b)).response =
      { status := 202
        body := .success { id := i, accepted := b, callbackurl := body.callbackurl } } ∧
    (postSubmissions body now (.ok i) (fun j => .ret b)).created =
      [ { id := some i, lang := some body.lang, start_time := some now } ] ∧
    getSubmissions (.ok ((postSubmissions body now (.ok i) (fun j => .ret b)).created)) =
      { status := 200
        body := .list [ { id := some i, lang := some body.lang, start_time := some now } ] } := by
  exact ⟨rfl, rfl, rfl⟩

/-- C4: at a concrete request carrying callbackurl http cb x, the record the
handler persists has callbackurl none (the store is given only lang and
start_time), and the job handed to the queue is exactly the four-field
object id, source, testcases, getstdout, a type with no callbackurl field at
all: the callbackurl is neither persisted on the Submission nor carried in
the Job, contradicting the claim. -/
theorem callbackurl_not_carried :
    (postSubmissions reqCb 5 (.ok 7) (fun j => .ret true)).created =
      [ { id := some 7, lang := some "cpp", start_time := some 5, callbackurl := none } ] ∧
    (postSubmissions reqCb 5 (.ok 7) (fun j => .ret true)).enqueued =
      [ { id := 7, source := "http://code/src.cpp"
          testcases := [ { input := "i1", output := "o1" } ], getstdout := true } ] ∧
    reqCb.callbackurl = "http://cb/x" := by
  exact ⟨rfl, rfl, rfl⟩

/-- C5: the handler performs no validation (the TODO at line 88): on a
request whose lang is not among the seeded slugs and whose testcases
sequence is empty, it still persists a record, still hands a job to the
queue, and answers 202, instead of rejecting with a client error before any
side effect. -/
theorem malformed_request_not_rejected :
    ((langsSetup []).map (fun l => l.lang_slug)).contains malformedReq.lang = false ∧
    malformedReq.testcases = [] ∧
    (postSubmissions malformedReq 0 (.ok 1) (fun j => .ret true)).response.status = 202 ∧
    (postSubmissions malformedReq 0 (.ok 1) (fun j => .ret true)).created.length = 1 ∧
    (postSubmissions malformedReq 0 (.ok 1) (fun j => .ret true)).enqueued.length = 1 := by
  exact ⟨rfl, rfl, rfl, rfl, rfl⟩

/-- C6: the callback payload built for a Job has exactly one result entry
per testcase of that Job and in the same order: the results sequence has the
same length as the testcases sequence, and at every position the result is
the one produced from the testcase at that same position. -/
theorem callback_results_match_testcases (job : SubmissionJob) (judge : Testcase → JudgeVerdict) :
    (buildCallbackPayload job judge).results.length = job.testcases.length ∧
    ∀ i : Nat,
      (buildCallbackPayload job judge).results[i]? =
        (job.testcases[i]?).map (fun tc => resultOfVerdict job.getstdout (judge tc)) := by
  constructor
  · simp [buildCallbackPayload]
  · intro i
    simp [buildCallbackPayload]

/-- C7: GET /submissions is a passthrough: on a successful findAll it
answers 200 with exactly the records the store holds, and on failure it
answers 501, a non 2xx status, with the structured error body of fields
code, message, error. -/
theorem get_passthrough (subs : List SubmissionAttributes) (e : String) :
    getSubmissions (.ok subs) = { status := 200, body := .list subs } ∧
    getSubmissions (.err e) =
      { status := 501
        body := .failure { code := 501, message := "Could not fetch submissions", error := e } } ∧
    300 ≤ (getSubmissions (.err e)).status := by
  refine ⟨rfl, rfl, ?_⟩
  simp [getSubmissions]

/-- C8: whatever the Langs table held before, after the seeding script runs
it holds exactly the five rows py2 Python 2.7, java8 Java 1.8, nodejs6
NodeJS 6, cpp C++ 11, c C 6, so the slugs are exactly py2, java8, nodejs6,
cpp, c. -/
theorem langs_seed_exact (prior : List LangsAttributes) :
    (langsSetup prior).map (fun l => (l.lang_slug, l.lang_name, l.lang_version)) =
      [ ("py2", "Python", "2.7"), ("java8", "Java", "1.8"), ("nodejs6", "NodeJS", "6")
      , ("cpp", "C++", "11"), ("c", "C", "6") ] ∧
    (langsSetup prior).map (fun l => l.lang_slug) = ["py2", "java8", "nodejs6", "cpp", "c"] := by
  exact ⟨rfl, rfl⟩

/-- C9: when the store create succeeds but queueJob throws, the throw lands
in the promise catch branch: the caller gets the 501 Could not accept
submission error response even though the Submission record was already
persisted. -/
theorem post_queue_throw_501 (body : SubmissionRequestBody) (now i : Nat) (e : String) :
    (postSubmissions body now (.ok i) (fun j => .raise e)).response =
      { status := 501
        body := .failure { code := 501, message := "Could not accept submission", error := e } } ∧
    (postSubmissions body now (.ok i) (fun j => .raise e)).created =
      [ { id := some i, lang := some body.lang, start_time := some now } ] ∧
    300 ≤ (postSubmissions body now (.ok i) (fun j => .raise e)).response.status := by
  refine ⟨rfl, rfl, ?_⟩
  simp [postSubmissions, couldNotAccept]

/-- C10: on every path the records written to the store carry only id, lang
and start_time, with start_time the time of receipt, and source, testcases,
getstdout, callbackurl all absent; and the callbackurl of the 202 response
is the one of the request, echoed, not read back from the persisted
record. -/
theorem intake_record_fields_minimal (body : SubmissionRequestBody) (now : Nat)
    (co : CreateOutcome) (q : SubmissionJob → QueueOutcome) :
    ((postSubmissions body now co q).created = [] ∨
      ∃ i : Nat,
        (postSubmissions body now co q).created =
          [ { id := some i, lang := some body.lang, start_time := some now } ]) ∧
    ∀ (i : Nat) (b : Bool),
      (postSubmissions body now (.ok i) (fun j => .ret b)).response.body =
        .success { id := i, accepted := b, callbackurl := body.callbackurl } := by
  constructor
  · cases co with
    | err e => exact Or.inl rfl
    | ok i =>
      refine Or.inr ⟨i, ?_⟩
      cases h : q (jobOf body i) <;>
        simp [postSubmissions, createPayload, h]
  · intro i b
    rfl

end JudgeApi
